import Mathlib

/-
Verification of the drgn Python binding for `Program`
(src/libdrgn/python/program.c) against its natural-language
specification.

The binding file marshals Python call arguments into native libdrgn
calls and maps native results and errors back to Python exceptions.
The native core (finder chains, module registry, handler registration,
symbol index) is not part of the source under verification; where a
property depends on it, the corresponding definition is modelled from
the specification and its doc comment starts with "Modelled from the
spec:".  Every other definition is a direct shallow embedding of the C
code in program.c.
-/

/-- Native drgn error codes distinguished by the binding
(`enum drgn_error_code`). Only the codes the binding inspects are
separated; all others are collapsed into `other`. -/
inductive DrgnErrorCode where
  | lookup
  | invalidArgument
  | typeMismatch
  | noMemory
  | other (n : Nat)
  deriving DecidableEq

/-- A native `struct drgn_error`: a code and a message. -/
structure DrgnError where
  code : DrgnErrorCode
  message : String
  deriving DecidableEq

/-- Python-level exceptions raised by the binding. `objectNotFoundError`
is the distinguished not-found exception created only by
`set_object_not_found_error`; it carries the queried name in its `name`
attribute. `drgnError` stands for the generic exception class that the
error-conversion helper raises for a native error code. -/
inductive PyExc where
  | typeError (msg : String)
  | valueError (msg : String)
  | keyError
  | lookupError (msg : String)
  | overflowError
  | objectNotFoundError (msg : String) (name : String)
  | drgnError (code : DrgnErrorCode) (msg : String)
  deriving DecidableEq

/-- An error travelling through a finder chain: either a native
`struct drgn_error` or a Python exception captured by
`drgn_error_from_python` when a Python callback raised. -/
inductive FinderError where
  | native (e : DrgnError)
  | python (e : PyExc)
  deriving DecidableEq

/-- The native error code seen by the binding's `err->code` checks.
Errors captured from a raised Python exception never carry the
`lookup` code. -/
def FinderError.code : FinderError → DrgnErrorCode
  | .native e => e.code
  | .python _ => .other 0

/-- Modelled from the spec: `set_drgn_error` (drgnpy error conversion,
not in program.c) raises the generic exception class for a native
error's code, and re-raises the original Python exception when the
error was captured from one; it never constructs the distinguished
`ObjectNotFoundError` (section 7: errors surface to the caller
unchanged). -/
def set_drgn_error : FinderError → PyExc
  | .native e => .drgnError e.code e.message
  | .python e => e

/-- Outcome of one finder strategy, as the chain sees it:
found (short-circuit), not-found (try the next entry), or a hard
error (abort). -/
inductive FindOutcome (α : Type) where
  | found (a : α)
  | notFound
  | failed (e : FinderError)

/-- Modelled from the spec: finder chain resolution (section 4.3,
libdrgn/handler.c not in the source): iterate the enabled entries in
priority order; `found` short-circuits, `notFound` advances to the
next entry, `failed` aborts immediately; exhaustion is `notFound`. -/
def chainResolve {α : Type} : List (FindOutcome α) → FindOutcome α
  | [] => .notFound
  | o :: rest =>
    match o with
    | .found a => .found a
    | .failed e => .failed e
    | .notFound => chainResolve rest

/-- The `kind` flag of an object lookup
(`enum drgn_find_object_flags`). -/
inductive FindObjectFlags where
  | anyObj
  | constObj
  | funcObj
  | varObj
  deriving DecidableEq

/-- A native `struct drgn_object`, reduced to the identity of the
program owning it plus an abstract payload. -/
structure DrgnObj where
  progId : Nat
  value : Nat
  deriving DecidableEq

/-- Modelled from the spec: `drgn_program_find_object` (libdrgn, not in
the source) resolves a name through the object finder chain
(section 4.3); exhaustion yields a not-found error carrying the
`DRGN_ERROR_LOOKUP` code (section 7). -/
def drgn_program_find_object
    (finders : List (String → FindObjectFlags → FindOutcome DrgnObj))
    (name : String) (flags : FindObjectFlags) : Except FinderError DrgnObj :=
  match chainResolve (finders.map (fun f => f name flags)) with
  | .found o => .ok o
  | .notFound => .error (.native ⟨.lookup, "could not find " ++ name⟩)
  | .failed e => .error e

/-- A Python argument that is expected to be a `str`: either a string
or some other object (carrying its type name for the error message). -/
inductive PyStrArg where
  | str (s : String)
  | nonStr (typeName : String)

/-- `Program_find_object`: checks that `name` is a `str`, runs the
native lookup, and maps a `DRGN_ERROR_LOOKUP` failure to the
distinguished `ObjectNotFoundError` carrying the queried name
(via `set_object_not_found_error`); any other error goes through
`set_drgn_error`. -/
def Program_find_object
    (finders : List (String → FindObjectFlags → FindOutcome DrgnObj))
    (name_obj : PyStrArg) (flags : FindObjectFlags) : Except PyExc DrgnObj :=
  match name_obj with
  | .nonStr t => .error (.typeError ("name must be str, not " ++ t))
  | .str name =>
    match drgn_program_find_object finders name flags with
    | .ok o => .ok o
    | .error e =>
      if e.code = .lookup then .error (.objectNotFoundError (errMessage e) name)
      else .error (set_drgn_error e)
where
  /-- the `err->message` handed to `set_object_not_found_error` -/
  errMessage : FinderError → String
    | .native e => e.message
    | .python _ => ""

/-- `Program_object` (`prog.object(name)`): object lookup with a
caller-chosen kind flag, defaulting to any. -/
def Program_object
    (finders : List (String → FindObjectFlags → FindOutcome DrgnObj))
    (name_obj : PyStrArg) (flags : FindObjectFlags := .anyObj) :
    Except PyExc DrgnObj :=
  Program_find_object finders name_obj flags

/-- `Program_constant` (`prog.constant(name)`). -/
def Program_constant
    (finders : List (String → FindObjectFlags → FindOutcome DrgnObj))
    (name_obj : PyStrArg) : Except PyExc DrgnObj :=
  Program_find_object finders name_obj .constObj

/-- `Program_function` (`prog.function(name)`). -/
def Program_function
    (finders : List (String → FindObjectFlags → FindOutcome DrgnObj))
    (name_obj : PyStrArg) : Except PyExc DrgnObj :=
  Program_find_object finders name_obj .funcObj

/-- `Program_variable` (`prog.variable(name)`). -/
def Program_variable
    (finders : List (String → FindObjectFlags → FindOutcome DrgnObj))
    (name_obj : PyStrArg) : Except PyExc DrgnObj :=
  Program_find_object finders name_obj .varObj

/-- `Program_contains` (`name in prog`) for a `str` key: runs the same
native lookup as `Program_find_object` with the any-kind flag; a
`DRGN_ERROR_LOOKUP` failure is destroyed and reported as `false`
(returns 0 without raising); any other error is raised (returns -1);
success is `true`. `.ok b` models returning without raising, `.error`
models raising. -/
def Program_contains
    (finders : List (String → FindObjectFlags → FindOutcome DrgnObj))
    (name : String) : Except PyExc Bool :=
  match drgn_program_find_object finders name .anyObj with
  | .ok _ => .ok true
  | .error e =>
    if e.code = .lookup then .ok false
    else .error (set_drgn_error e)

/-- A native `struct drgn_symbol`, reduced to the fields the binding
copies: name, address, size. -/
structure DrgnSymbol where
  name : String
  address : Nat
  size : Nat
  deriving DecidableEq

/-- One element of the sequence returned by a Python symbol finder:
either a `Symbol` or a value of some other type. -/
inductive PySymItem where
  | sym (s : DrgnSymbol)
  | nonSym (typeName : String)
  deriving DecidableEq

/-- Result of calling a Python symbol finder: it raised, returned a
non-sequence, or returned a sequence of items. -/
inductive SymCallResult where
  | raised (e : PyExc)
  | nonSequence
  | seq (items : List PySymItem)

/-- The result-adding loop of `py_symbol_find_fn`: each item must be a
`Symbol`; a wrong-typed item aborts with a `DRGN_ERROR_TYPE` error,
otherwise every symbol is copied into the result builder in order. -/
def addSymbols : List PySymItem → Except FinderError (List DrgnSymbol)
  | [] => .ok []
  | .nonSym _ :: _ =>
    .error (.native ⟨.typeMismatch, "symbol finder results must be of type Symbol"⟩)
  | .sym s :: rest => (addSymbols rest).map (s :: ·)

/-- The generic (Python-dispatch) path of `py_symbol_find_fn`: a raised
exception or a non-sequence return is an error; a sequence of more than
one element when `DRGN_FIND_SYMBOL_ONE` was set is a
`DRGN_ERROR_INVALID_ARGUMENT` error; otherwise the items are added via
the builder loop. -/
def py_symbol_find_fn_generic (one : Bool) (res : SymCallResult) :
    Except FinderError (List DrgnSymbol) :=
  match res with
  | .raised e => .error (.python e)
  | .nonSequence =>
    .error (.python (.typeError "symbol finder must return a sequence"))
  | .seq items =>
    if 1 < items.length ∧ one then
      .error (.native ⟨.invalidArgument,
        "symbol finder returned multiple elements, but one was requested"⟩)
    else addSymbols items

/-- A symbol query as passed to `py_symbol_find_fn`: the name (when
`DRGN_FIND_SYMBOL_NAME` is set), the address (when
`DRGN_FIND_SYMBOL_ADDR` is set), and the `DRGN_FIND_SYMBOL_ONE` flag. -/
structure SymbolQuery where
  name : Option String
  addr : Option Nat
  one : Bool

/-- Modelled from the spec: `drgn_symbol_index_find` (libdrgn, not in
the source) queries the prebuilt index structure directly: it selects
the symbols matching the requested name and/or containing the requested
address, keeping only the first match when exactly one result was
requested. -/
def drgn_symbol_index_find (q : SymbolQuery) (ix : List DrgnSymbol) :
    List DrgnSymbol :=
  let ms := ix.filter (fun s =>
    (q.name.all (fun n => s.name == n)) &&
    (q.addr.all (fun a => decide (s.address ≤ a ∧ a < s.address + s.size))))
  if q.one then ms.take 1 else ms

/-- The per-finder argument of a registered symbol finder, as inspected
by `py_symbol_find_fn`: either a `SymbolIndex` (a prebuilt index) or a
generic Python callable. -/
inductive SymbolFinderEntry where
  | index (ix : List DrgnSymbol)
  | callable (f : SymbolQuery → SymCallResult)

/-- `py_symbol_find_fn`: if the registered entry is a `SymbolIndex`
(checked by exact type comparison on this entry alone), take the fast
path and query the index structure directly; otherwise dispatch through
the generic Python-call path. -/
def py_symbol_find_fn (entry : SymbolFinderEntry) (q : SymbolQuery) :
    Except FinderError (List DrgnSymbol) :=
  match entry with
  | .index ix => .ok (drgn_symbol_index_find q ix)
  | .callable f => py_symbol_find_fn_generic q.one (f q)

/-- Modelled from the spec: invoking a `SymbolIndex` through the
generic dispatch path means calling it as a Python callable; its call
method (defined outside program.c) performs the same index search and
returns the matching symbols as a sequence of `Symbol` values. -/
def symbolIndexCall (ix : List DrgnSymbol) (q : SymbolQuery) : SymCallResult :=
  .seq ((drgn_symbol_index_find q ix).map .sym)

/-- The invocation of the finder registered at position `i` of the
symbol finder chain: each registered entry is dispatched through
`py_symbol_find_fn` with its own argument tuple, independently of the
other entries. -/
def chainEntryInvoke (entries : List SymbolFinderEntry) (i : Nat)
    (q : SymbolQuery) : Option (Except FinderError (List DrgnSymbol)) :=
  (entries[i]?).map (fun e => py_symbol_find_fn e q)

/-- `SIZE_MAX` for the 64-bit `size_t` of the binding (2 ^ 64 - 1). -/
def SIZE_MAX : Nat := 18446744073709551615

/-- The don't-enable sentinel `DRGN_HANDLER_REGISTER_DONT_ENABLE`
(`SIZE_MAX - 1`, per the collision comment in the registration
macro). -/
def DRGN_HANDLER_REGISTER_DONT_ENABLE : Nat := SIZE_MAX - 1

/-- Modelled from the spec: the sentinel
`DRGN_HANDLER_REGISTER_ENABLE_LAST` that the binding passes for
`enable_index=-1`. Its numeric value lives in libdrgn/handler.h (not in
the source); all that the binding relies on is that it is distinct from
the don't-enable sentinel. -/
def DRGN_HANDLER_REGISTER_ENABLE_LAST : Nat := SIZE_MAX

/-- The `enable_index` keyword argument: `None` or a Python integer. -/
inductive EnableIndexArg where
  | noneVal
  | intVal (i : Int)

/-- The `enable_index` conversion in
`Program_register_*_finder` (DEFINE_PROGRAM_FINDER_METHODS): `None`
maps to the don't-enable sentinel; an integer equal to `-1` maps to the
enable-last sentinel; any other integer goes through `PyLong_AsSize_t`
(raising `OverflowError` outside `[0, SIZE_MAX]`), and a converted
index that collides with the don't-enable sentinel is decremented so it
is not misread as the sentinel. -/
def parse_enable_index (arg : EnableIndexArg) : Except PyExc Nat :=
  match arg with
  | .noneVal => .ok DRGN_HANDLER_REGISTER_DONT_ENABLE
  | .intVal i =>
    if i = -1 then .ok DRGN_HANDLER_REGISTER_ENABLE_LAST
    else if i < 0 ∨ (SIZE_MAX : Int) < i then .error .overflowError
    else
      let n := i.toNat
      .ok (if n = DRGN_HANDLER_REGISTER_DONT_ENABLE then n - 1 else n)

/-- One finder chain: the registered names and the enabled subsequence
in priority order (highest priority first, per section 4.3). -/
structure FinderChain where
  registered : List String
  enabled : List String
  deriving DecidableEq

/-- Insert `x` into `l` before position `i` (append when `i` is the
length of `l`). -/
def insertAt (l : List String) (i : Nat) (x : String) : List String :=
  l.take i ++ x :: l.drop i

/-- Modelled from the spec: `drgn_handler_register`
(libdrgn/handler.c, not in the source). Registration fails on a
duplicate name; `enable_index` is either the don't-enable sentinel
(register but leave disabled), the sentinel passed for `-1` (enable as
the new highest priority, per section 4.3's sentinel), or a zero-based
index into the currently-enabled subsequence (inserting before that
position; an index beyond the end appends). -/
def drgn_handler_register (chain : FinderChain) (name : String)
    (enable_index : Nat) : Except DrgnError FinderChain :=
  if name ∈ chain.registered then
    .error ⟨.invalidArgument, "duplicate finder name"⟩
  else if enable_index = DRGN_HANDLER_REGISTER_DONT_ENABLE then
    .ok ⟨name :: chain.registered, chain.enabled⟩
  else if enable_index = DRGN_HANDLER_REGISTER_ENABLE_LAST then
    .ok ⟨name :: chain.registered, name :: chain.enabled⟩
  else
    .ok ⟨name :: chain.registered,
         insertAt chain.enabled (min enable_index chain.enabled.length) name⟩

/-- `Program_register_*_finder` (all four kinds instantiate the same
macro): check that `fn` is callable, convert `enable_index`, and hand
the finder to the native registration. -/
def Program_register_finder (chain : FinderChain) (name : String)
    (fnCallable : Bool) (arg : EnableIndexArg) : Except PyExc FinderChain :=
  if !fnCallable then .error (.typeError "fn must be callable")
  else
    match parse_enable_index arg with
    | .error e => .error e
    | .ok idx =>
      match drgn_handler_register chain name idx with
      | .ok c => .ok c
      | .error e => .error (set_drgn_error (.native e))

/-- A native qualified type (`struct drgn_qualified_type`), reduced to
the identity of the program owning it, a name, and its qualifiers. -/
structure DrgnQualifiedType where
  progId : Nat
  typeName : String
  qualifiers : Nat
  deriving DecidableEq

/-- The `type_obj` argument of `Program_type_arg`: a drgn `Type`, a
`str`, `None`, or a value of some other type. -/
inductive TypeArgInput where
  | typeVal (t : DrgnQualifiedType)
  | strVal (s : String)
  | noneVal
  | otherVal (typeName : String)

/-- `Program_type_arg`: converts a type-or-name argument. A drgn `Type`
from a different program is rejected with `ValueError` before anything
else happens; a `str` is resolved through the native type lookup;
`None` is accepted only when allowed. The second component records
whether the native lookup was dispatched. -/
def Program_type_arg (selfId : Nat)
    (native : String → Except FinderError DrgnQualifiedType)
    (arg : TypeArgInput) (can_be_none : Bool) :
    Except PyExc (Option DrgnQualifiedType) × Bool :=
  match arg with
  | .typeVal t =>
    if t.progId ≠ selfId then
      (.error (.valueError "type is from different program"), false)
    else (.ok (some t), false)
  | .strVal s =>
    (match native s with
     | .ok t => .ok (some t)
     | .error e => .error (set_drgn_error e), true)
  | .noneVal =>
    if can_be_none then (.ok none, false)
    else (.error (.typeError "type must be Type or str"), false)
  | .otherVal _ =>
    (.error (.typeError
      (if can_be_none then "type must be Type, str, or None"
       else "type must be Type or str")), false)

/-- `Program_find_type` (`prog.type(...)`): a drgn `Type` argument from
a different program is rejected with `ValueError` before any native
dispatch; a `Type` from this program is returned as is; a `str` is
resolved through the native type lookup; anything else is a
`TypeError`. The second component records whether the native lookup was
dispatched. -/
def Program_find_type (selfId : Nat)
    (native : String → Option String → Except FinderError DrgnQualifiedType)
    (arg : TypeArgInput) (filename : Option String) :
    Except PyExc DrgnQualifiedType × Bool :=
  match arg with
  | .typeVal t =>
    if t.progId ≠ selfId then
      (.error (.valueError "type is from different program"), false)
    else (.ok t, false)
  | .strVal s =>
    (match native s filename with
     | .ok t => .ok t
     | .error e => .error (set_drgn_error e), true)
  | .noneVal => (.error (.typeError "type() argument 1 must be str or Type"), false)
  | .otherVal _ =>
    (.error (.typeError "type() argument 1 must be str or Type"), false)

/-- A native `struct drgn_module`, reduced to the identity of the
program owning it and its name. -/
structure DrgnModule where
  progId : Nat
  name : String
  deriving DecidableEq

/-- `Module_wrap_find`: wrap a found module, or raise `LookupError`
when the native lookup found none. -/
def Module_wrap_find (m : Option DrgnModule) : Except PyExc DrgnModule :=
  match m with
  | some m => .ok m
  | none => .error (.lookupError "module not found")

/-- `Program_linux_kernel_loadable_module`: the `module_obj` argument
must belong to this program, checked with `ValueError` before any
native dispatch; then find-or-create (with `create`) or find (mapping a
missing module to `LookupError`). The second component records whether
a native module call was dispatched. -/
def Program_linux_kernel_loadable_module (selfId : Nat)
    (module_obj : DrgnObj) (create : Bool)
    (native_create : DrgnObj → Except FinderError DrgnModule)
    (native_find : DrgnObj → Except FinderError (Option DrgnModule)) :
    Except PyExc DrgnModule × Bool :=
  if module_obj.progId ≠ selfId then
    (.error (.valueError "object is from different program"), false)
  else if create then
    (match native_create module_obj with
     | .ok m => .ok m
     | .error e => .error (set_drgn_error e), true)
  else
    (match native_find module_obj with
     | .ok m => Module_wrap_find m
     | .error e => .error (set_drgn_error e), true)

/-- One element of a modules argument: a drgn `Module` or a value of
some other type. -/
inductive PyModuleArg where
  | module (m : DrgnModule)
  | nonModule (typeName : String)

/-- The argument-collection loop shared by
`Program_load_module_debug_info` and
`Program_find_standard_debug_info`: each argument must be a `Module`
(else `TypeError`) belonging to this program (else `ValueError`),
checked in order before the native call. -/
def collectModules (selfId : Nat) :
    List PyModuleArg → Except PyExc (List DrgnModule)
  | [] => .ok []
  | .nonModule t :: _ => .error (.typeError ("expected Module, not " ++ t))
  | .module m :: rest =>
    if m.progId ≠ selfId then .error (.valueError "module from wrong program")
    else (collectModules selfId rest).map (m :: ·)

/-- `Program_load_module_debug_info`: validate every argument (type and
owning program) before dispatching the native loader. The second
component records whether the native loader was dispatched. -/
def Program_load_module_debug_info (selfId : Nat) (args : List PyModuleArg)
    (native : List DrgnModule → Except FinderError Unit) :
    Except PyExc Unit × Bool :=
  match collectModules selfId args with
  | .error e => (.error e, false)
  | .ok ms =>
    (match native ms with
     | .ok _ => .ok ()
     | .error e => .error (set_drgn_error e), true)

/-- The `options` argument of `Program_find_standard_debug_info`. -/
inductive PyOptionsArg where
  | noneVal
  | options
  | nonOptions (typeName : String)

/-- `Program_find_standard_debug_info`: collect and validate the
modules (type and owning program, in iteration order), then validate
`options`, then dispatch the native search. The second component
records whether the native search was dispatched. -/
def Program_find_standard_debug_info (selfId : Nat)
    (args : List PyModuleArg) (opts : PyOptionsArg)
    (native : List DrgnModule → Except FinderError Unit) :
    Except PyExc Unit × Bool :=
  match collectModules selfId args with
  | .error e => (.error e, false)
  | .ok ms =>
    match opts with
    | .nonOptions _ =>
      (.error (.typeError "options must be DebugInfoOptions or None"), false)
    | _ =>
      (match native ms with
       | .ok _ => .ok ()
       | .error e => .error (set_drgn_error e), true)

/-- Modelled from the spec: the registry's main-module slot
(section 4.2): at most one main module exists, keyed by name;
find-or-create returns the existing one when the name matches and fails
when a second create uses a different name. Returns the module, the new
registry state, and whether it was created. -/
def drgn_module_find_or_create_main (selfId : Nat)
    (registry : Option DrgnModule) (name : String) :
    Except DrgnError (DrgnModule × Option DrgnModule × Bool) :=
  match registry with
  | none =>
    .ok (⟨selfId, name⟩, some ⟨selfId, name⟩, true)
  | some m =>
    if m.name = name then .ok (m, some m, false)
    else .error ⟨.invalidArgument, "main module already exists with a different name"⟩

/-- Modelled from the spec: `drgn_module_find_main` (libdrgn, not in
the source): return the main module, requiring its name to match when
a name was supplied. -/
def drgn_module_find_main (registry : Option DrgnModule)
    (name : Option String) : Option DrgnModule :=
  match registry with
  | none => none
  | some m =>
    match name with
    | none => some m
    | some n => if m.name = n then some m else none

/-- `Program_main_module`: with `create=True` a missing name is a
`TypeError` (nothing is created); otherwise find-or-create keyed by the
name. With `create=False` the lookup maps a missing main module to
`LookupError` via `Module_wrap_find`. Returns the Python-level result
and the registry state afterwards. -/
def Program_main_module (selfId : Nat) (registry : Option DrgnModule)
    (name : Option String) (create : Bool) :
    Except PyExc DrgnModule × Option DrgnModule :=
  if create then
    match name with
    | none => (.error (.typeError "name must be given if create=True"), registry)
    | some n =>
      match drgn_module_find_or_create_main selfId registry n with
      | .ok (m, reg2, _) => (.ok m, reg2)
      | .error e => (.error (set_drgn_error (.native e)), registry)
  else
    (Module_wrap_find (drgn_module_find_main registry name), registry)

/-- Result of calling a Python type finder: it raised, returned
`None`, returned a drgn `Type`, or returned a value of some other
type. -/
inductive TypeCallResult where
  | raised (e : PyExc)
  | noneVal
  | typeVal (t : DrgnQualifiedType)
  | nonType (typeName : String)

/-- `py_type_find_fn` (including `py_type_find_fn_common`): map the
callback's return to the three chain outcomes. A raised exception is an
error; `None` is the not-found sentinel `&drgn_not_found`; a non-`Type`
return is a `TypeError`; a `Type` from a different program is a
`ValueError`; a `Type` from this program is found. -/
def py_type_find_fn (selfId : Nat) (res : TypeCallResult) :
    FindOutcome DrgnQualifiedType :=
  match res with
  | .raised e => .failed (.python e)
  | .noneVal => .notFound
  | .nonType _ =>
    .failed (.python (.typeError "type find callback must return Type or None"))
  | .typeVal t =>
    if t.progId ≠ selfId then
      .failed (.python
        (.valueError "type find callback returned type from wrong program"))
    else .found t

/-- Result of calling a Python object finder. -/
inductive ObjectCallResult where
  | raised (e : PyExc)
  | noneVal
  | objVal (o : DrgnObj)
  | nonObj (typeName : String)

/-- Modelled from the spec: `drgn_object_copy` (libdrgn, not in the
source) copies the found object into the caller's result slot;
cross-program misuse is a hard invalid-argument error (section 7). -/
def drgn_object_copy (selfId : Nat) (o : DrgnObj) : Except DrgnError DrgnObj :=
  if o.progId ≠ selfId then
    .error ⟨.invalidArgument, "objects are from different programs"⟩
  else .ok o

/-- `py_object_find_fn`: map the callback's return to the three chain
outcomes. A raised exception is an error; `None` is the not-found
sentinel; a non-`Object` return is a `TypeError`; otherwise the object
is copied into the result (which rejects an object from a different
program). -/
def py_object_find_fn (selfId : Nat) (res : ObjectCallResult) :
    FindOutcome DrgnObj :=
  match res with
  | .raised e => .failed (.python e)
  | .noneVal => .notFound
  | .nonObj _ =>
    .failed (.python (.typeError "object find callback must return Object or None"))
  | .objVal o =>
    match drgn_object_copy selfId o with
    | .ok o2 => .found o2
    | .error e => .failed (.native e)

/-- Result of calling a memory-segment read callback: it raised,
returned a value that does not support the buffer protocol, or
returned a buffer of bytes. -/
inductive BufCallResult where
  | raised (e : PyExc)
  | nonBuffer
  | buffer (bytes : List Nat)

/-- `py_memory_read_fn`: call the registered read callback for `count`
bytes; if it raises or does not return a buffer, fail; if the returned
buffer's length is not exactly `count`, fail with a `ValueError`
reporting both lengths; only on success are the `count` bytes copied
into the destination. Returns the error status and the destination
buffer's contents afterwards. -/
def py_memory_read_fn (dest : List Nat) (count : Nat)
    (res : BufCallResult) : Except FinderError Unit × List Nat :=
  match res with
  | .raised e => (.error (.python e), dest)
  | .nonBuffer =>
    (.error (.python (.typeError "object does not support the buffer protocol")),
     dest)
  | .buffer bytes =>
    if bytes.length ≠ count then
      (.error (.python (.valueError
        ("memory read callback returned buffer of length "
          ++ toString bytes.length ++ " (expected " ++ toString count ++ ")"))),
       dest)
    else (.ok (), bytes)

/-- The held-object state of a `Program`: the set of Python objects it
keeps alive (`prog->objects`, a hash set, so no duplicates) and the
reference count of every Python object (objects named by identity). -/
structure ProgObjects where
  objects : List Nat
  refcnt : Nat → Int

/-- `Program_hold_object`: insert the object into the held set;
a new insertion increments the object's reference count, inserting an
already-held object changes nothing. -/
def Program_hold_object (s : ProgObjects) (obj : Nat) : ProgObjects :=
  if obj ∈ s.objects then s
  else
    { objects := obj :: s.objects,
      refcnt := Function.update s.refcnt obj (s.refcnt obj + 1) }

/-- The deallocation loop of `Program_dealloc`/`Program_clear`: decref
each entry of the held set once, in order. -/
def decrefAll (objs : List Nat) (rc : Nat → Int) : Nat → Int :=
  match objs with
  | [] => rc
  | o :: rest => decrefAll rest (Function.update rc o (rc o - 1))

/-- `Program_dealloc` restricted to the held-object state: decref every
held object once and drop the set. -/
def Program_dealloc (s : ProgObjects) : ProgObjects :=
  { objects := [], refcnt := decrefAll s.objects s.refcnt }

/-- `Program_clear`: decref every held object once and re-initialize
the set to empty. -/
def Program_clear (s : ProgObjects) : ProgObjects :=
  { objects := [], refcnt := decrefAll s.objects s.refcnt }

/-- The held-object effect of `Program_add_memory_segment`: the
`read_fn` callback is held by the program. -/
def Program_add_memory_segment_objects (s : ProgObjects) (read_fn : Nat) :
    ProgObjects :=
  Program_hold_object s read_fn

/-- The held-object effect of `Program_register_*_finder` /
`add_type_finder` / `add_object_finder`: the finder callable (or its
argument tuple) is held by the program after successful
registration. -/
def Program_register_finder_objects (s : ProgObjects) (arg : Nat) :
    ProgObjects :=
  Program_hold_object s arg

/-- A chain whose entries all report not-found resolves to not-found. -/
theorem chainResolve_all_notFound {α : Type} (outs : List (FindOutcome α))
    (h : ∀ o ∈ outs, o = FindOutcome.notFound) :
    chainResolve outs = FindOutcome.notFound := by
  induction outs with
  | nil => rfl
  | cons o rest ih =>
    have ho := h o (List.mem_cons_self o rest)
    subst ho
    simpa [chainResolve] using ih (fun o hm => h o (List.mem_cons_of_mem _ hm))

/-- The builder loop accepts a sequence consisting solely of symbols
and returns them in order. -/
theorem addSymbols_map_sym (l : List DrgnSymbol) :
    addSymbols (l.map PySymItem.sym) = .ok l := by
  induction l with
  | nil => rfl
  | cons s rest ih => simp [addSymbols, ih, Except.map]

/-- If every argument is a `Module` and some argument is a `Module` of
a different program, the collection loop fails with the wrong-program
`ValueError`. -/
theorem collectModules_wrong_prog (selfId : Nat) (args : List PyModuleArg)
    (hall : ∀ a ∈ args, ∃ m, a = PyModuleArg.module m)
    (hbad : ∃ m, PyModuleArg.module m ∈ args ∧ m.progId ≠ selfId) :
    collectModules selfId args
      = .error (.valueError "module from wrong program") := by
  induction args with
  | nil =>
    obtain ⟨m, hm, _⟩ := hbad
    exact absurd hm (List.not_mem_nil _)
  | cons a rest ih =>
    obtain ⟨m0, hm0⟩ := hall a (List.mem_cons_self a rest)
    subst hm0
    by_cases hp : m0.progId = selfId
    · obtain ⟨m, hm, hne⟩ := hbad
      rcases List.mem_cons.mp hm with heq | hmem
      · cases heq; exact absurd hp hne
      · have := ih (fun a ha => hall a (List.mem_cons_of_mem _ ha)) ⟨m, hmem, hne⟩
        simp [collectModules, hp, this, Except.map]
    · simp [collectModules, hp]

/-- The deallocation loop decrements each object's count once per
occurrence in the held list. -/
theorem decrefAll_count (objs : List Nat) (rc : Nat → Int) (o : Nat) :
    decrefAll objs rc o = rc o - (objs.count o : Int) := by
  induction objs generalizing rc with
  | nil => simp [decrefAll]
  | cons a rest ih =>
    rw [decrefAll, ih]
    by_cases h : a = o
    · subst h
      simp [Function.update, List.count_cons]
      ring
    · have h2 : o ≠ a := fun hc => h hc.symm
      simp [Function.update, h2, List.count_cons, Ne.symm h]

/-- Inserting at the length of the list appends. -/
theorem insertAt_length (l : List String) (x : String) :
    insertAt l l.length x = l ++ [x] := by
  simp [insertAt]

/-- After `Program_hold_object`, the object is held. -/
theorem hold_mem (s : ProgObjects) (x : Nat) :
    x ∈ (Program_hold_object s x).objects := by
  unfold Program_hold_object
  by_cases h : x ∈ s.objects
  · simp [h]
  · simp [h]

/-- Claim C1: for every name string that no object finder can resolve
(every registered finder reports not-found for it under every kind
flag), `find_object` and the object/constant/function/variable lookup
methods built on it fail with the distinguished `ObjectNotFoundError`
whose `name` attribute equals the queried string, and that exception is
distinct from every exception the generic error conversion produces for
a native error. -/
theorem find_object_not_found_distinguished
    (finders : List (String → FindObjectFlags → FindOutcome DrgnObj))
    (name : String)
    (h : ∀ f ∈ finders, ∀ fl, f name fl = FindOutcome.notFound) :
    (∀ fl, ∃ msg, Program_find_object finders (.str name) fl
        = .error (.objectNotFoundError msg name))
    ∧ (∃ msg, Program_object finders (.str name)
        = .error (.objectNotFoundError msg name))
    ∧ (∃ msg, Program_constant finders (.str name)
        = .error (.objectNotFoundError msg name))
    ∧ (∃ msg, Program_function finders (.str name)
        = .error (.objectNotFoundError msg name))
    ∧ (∃ msg, Program_variable finders (.str name)
        = .error (.objectNotFoundError msg name))
    ∧ (∀ e msg nm,
        set_drgn_error (.native e) ≠ PyExc.objectNotFoundError msg nm) := by
  have hres : ∀ fl, drgn_program_find_object finders name fl
      = .error (.native ⟨.lookup, "could not find " ++ name⟩) := by
    intro fl
    unfold drgn_program_find_object
    rw [chainResolve_all_notFound]
    intro o ho
    obtain ⟨f, hf, rfl⟩ := List.mem_map.mp ho
    exact h f hf fl
  have key : ∀ fl, Program_find_object finders (.str name) fl
      = .error (.objectNotFoundError ("could not find " ++ name) name) := by
    intro fl
    simp [Program_find_object, hres fl, FinderError.code,
      Program_find_object.errMessage]
  refine ⟨fun fl => ⟨_, key fl⟩, ⟨_, key _⟩, ⟨_, key _⟩, ⟨_, key _⟩, ⟨_, key _⟩,
    ?_⟩
  intro e msg nm
  simp [set_drgn_error]

/-- Witness for C1 at a concrete program with one finder that resolves
nothing and the queried name "missing_name". -/
theorem find_object_not_found_distinguished_witness :
    (∀ fl, ∃ msg,
        Program_find_object [fun _ _ => FindOutcome.notFound]
          (.str "missing_name") fl
          = .error (.objectNotFoundError msg "missing_name"))
    ∧ (∃ msg, Program_object [fun _ _ => FindOutcome.notFound]
        (.str "missing_name")
        = .error (.objectNotFoundError msg "missing_name"))
    ∧ (∃ msg, Program_constant [fun _ _ => FindOutcome.notFound]
        (.str "missing_name")
        = .error (.objectNotFoundError msg "missing_name"))
    ∧ (∃ msg, Program_function [fun _ _ => FindOutcome.notFound]
        (.str "missing_name")
        = .error (.objectNotFoundError msg "missing_name"))
    ∧ (∃ msg, Program_variable [fun _ _ => FindOutcome.notFound]
        (.str "missing_name")
        = .error (.objectNotFoundError msg "missing_name"))
    ∧ (∀ e msg nm,
        set_drgn_error (.native e) ≠ PyExc.objectNotFoundError msg nm) :=
  find_object_not_found_distinguished [fun _ _ => FindOutcome.notFound]
    "missing_name"
    (by
      intro f hf fl
      rw [List.mem_singleton] at hf
      subst hf
      rfl)

/-- Claim C2: `name in program` returns `false` without raising exactly
when the native object lookup fails with the lookup-coded not-found
error (in which case the direct `find_object` raises the distinguished
`ObjectNotFoundError` carrying the name); it returns `true` exactly
when the lookup succeeds; any other error is raised, not converted to a
boolean. -/
theorem contains_bool_probe
    (finders : List (String → FindObjectFlags → FindOutcome DrgnObj))
    (name : String) :
    (Program_contains finders name = .ok false ↔
      ∃ e, drgn_program_find_object finders name .anyObj = .error e
        ∧ FinderError.code e = .lookup)
    ∧ (Program_contains finders name = .ok false →
      ∃ msg, Program_find_object finders (.str name) .anyObj
        = .error (.objectNotFoundError msg name))
    ∧ (Program_contains finders name = .ok true ↔
      ∃ o, drgn_program_find_object finders name .anyObj = .ok o)
    ∧ (∀ e, drgn_program_find_object finders name .anyObj = .error e →
      FinderError.code e ≠ .lookup →
      Program_contains finders name = .error (set_drgn_error e)) := by
  rcases hd : drgn_program_find_object finders name .anyObj with e | o
  · by_cases hc : FinderError.code e = .lookup
    · have hcont : Program_contains finders name = .ok false := by
        simp [Program_contains, hd, hc]
      refine ⟨?_, ?_, ?_, ?_⟩
      · rw [hcont]
        exact iff_of_true rfl ⟨e, rfl, hc⟩
      · intro _
        refine ⟨Program_find_object.errMessage e, ?_⟩
        simp [Program_find_object, hd, hc]
      · rw [hcont]
        constructor
        · intro hft
          cases hft
        · rintro ⟨o, ho⟩
          cases ho
      · intro e2 he2 hc2
        injection he2 with h2
        subst h2
        exact absurd hc hc2
    · have hcont : Program_contains finders name = .error (set_drgn_error e) := by
        simp [Program_contains, hd, hc]
      refine ⟨?_, ?_, ?_, ?_⟩
      · rw [hcont]
        constructor
        · intro hfe
          cases hfe
        · rintro ⟨e2, he2, hc2⟩
          injection he2 with h2
          subst h2
          exact absurd hc2 hc
      · intro hfalse
        rw [hcont] at hfalse
        cases hfalse
      · rw [hcont]
        constructor
        · intro hfe
          cases hfe
        · rintro ⟨o, ho⟩
          cases ho
      · intro e2 he2 _
        injection he2 with h2
        subst h2
        exact hcont
  · have hcont : Program_contains finders name = .ok true := by
      simp [Program_contains, hd]
    refine ⟨?_, ?_, ?_, ?_⟩
    · rw [hcont]
      constructor
      · intro hft
        cases hft
      · rintro ⟨e2, he2, _⟩
        cases he2
    · intro hfalse
      rw [hcont] at hfalse
      cases hfalse
    · rw [hcont]
      exact iff_of_true rfl ⟨o, rfl⟩
    · intro e2 he2 _
      cases he2

/-- Witness for C2 at a concrete program whose single finder always
fails with an invalid-argument error, and the name "missing_name". -/
theorem contains_bool_probe_witness :
    (Program_contains
        [fun _ _ => FindOutcome.failed
          (.native ⟨.invalidArgument, "boom"⟩)] "missing_name" = .ok false ↔
      ∃ e, drgn_program_find_object
          [fun _ _ => FindOutcome.failed
            (.native ⟨.invalidArgument, "boom"⟩)] "missing_name" .anyObj
          = .error e ∧ FinderError.code e = .lookup)
    ∧ (Program_contains
        [fun _ _ => FindOutcome.failed
          (.native ⟨.invalidArgument, "boom"⟩)] "missing_name" = .ok false →
      ∃ msg, Program_find_object
          [fun _ _ => FindOutcome.failed
            (.native ⟨.invalidArgument, "boom"⟩)] (.str "missing_name") .anyObj
          = .error (.objectNotFoundError msg "missing_name"))
    ∧ (Program_contains
        [fun _ _ => FindOutcome.failed
          (.native ⟨.invalidArgument, "boom"⟩)] "missing_name" = .ok true ↔
      ∃ o, drgn_program_find_object
          [fun _ _ => FindOutcome.failed
            (.native ⟨.invalidArgument, "boom"⟩)] "missing_name" .anyObj
          = .ok o)
    ∧ (∀ e, drgn_program_find_object
          [fun _ _ => FindOutcome.failed
            (.native ⟨.invalidArgument, "boom"⟩)] "missing_name" .anyObj
          = .error e →
      FinderError.code e ≠ .lookup →
      Program_contains
          [fun _ _ => FindOutcome.failed
            (.native ⟨.invalidArgument, "boom"⟩)] "missing_name"
          = .error (set_drgn_error e)) :=
  contains_bool_probe
    [fun _ _ => FindOutcome.failed (.native ⟨.invalidArgument, "boom"⟩)]
    "missing_name"

/-- Claim C3: a symbol finder invoked with the one-result flag set that
returns a sequence of more than one element fails with an
`InvalidArgument` error; the same sequence of symbols succeeds, all
results added in order, when the one-result flag is not set. -/
theorem symbol_finder_one_requested (syms : List DrgnSymbol)
    (h : 1 < syms.length) :
    py_symbol_find_fn_generic true (.seq (syms.map PySymItem.sym))
      = .error (.native ⟨.invalidArgument,
          "symbol finder returned multiple elements, but one was requested"⟩)
    ∧ py_symbol_find_fn_generic false (.seq (syms.map PySymItem.sym))
      = .ok syms := by
  constructor
  · simp [py_symbol_find_fn_generic, h]
  · simp [py_symbol_find_fn_generic, addSymbols_map_sym]

/-- Witness for C3 at a concrete two-element result sequence. -/
theorem symbol_finder_one_requested_witness :
    py_symbol_find_fn_generic true
        (.seq ([⟨"a", 0, 1⟩, ⟨"b", 1, 1⟩].map PySymItem.sym))
      = .error (.native ⟨.invalidArgument,
          "symbol finder returned multiple elements, but one was requested"⟩)
    ∧ py_symbol_find_fn_generic false
        (.seq ([⟨"a", 0, 1⟩, ⟨"b", 1, 1⟩].map PySymItem.sym))
      = .ok [⟨"a", 0, 1⟩, ⟨"b", 1, 1⟩] :=
  symbol_finder_one_requested [⟨"a", 0, 1⟩, ⟨"b", 1, 1⟩] (by decide)

/-- Claim C4: the `enable_index` argument of the four
`register_*_finder` methods is interpreted as: `None` registers the
finder without enabling it; `-1` enables it as the new highest
priority; a non-negative integer enables it at that zero-based index
among the currently enabled finders (an index beyond the end appends);
and an integer equal to the internal don't-enable sentinel
(`SIZE_MAX - 1`) is adjusted and still enables the finder (appending)
rather than being misread as the sentinel. -/
theorem register_finder_enable_index (chain : FinderChain) (name : String)
    (hname : name ∉ chain.registered)
    (hlen : chain.enabled.length ≤ DRGN_HANDLER_REGISTER_DONT_ENABLE - 1)
    (n : Nat) (hn : n < DRGN_HANDLER_REGISTER_DONT_ENABLE) :
    Program_register_finder chain name true .noneVal
      = .ok ⟨name :: chain.registered, chain.enabled⟩
    ∧ Program_register_finder chain name true (.intVal (-1))
      = .ok ⟨name :: chain.registered, name :: chain.enabled⟩
    ∧ Program_register_finder chain name true (.intVal (n : Int))
      = .ok ⟨name :: chain.registered,
             insertAt chain.enabled (min n chain.enabled.length) name⟩
    ∧ Program_register_finder chain name true
        (.intVal (DRGN_HANDLER_REGISTER_DONT_ENABLE : Int))
      = .ok ⟨name :: chain.registered, chain.enabled ++ [name]⟩ := by
  have hdont : DRGN_HANDLER_REGISTER_DONT_ENABLE = 18446744073709551614 := rfl
  have hlast : DRGN_HANDLER_REGISTER_ENABLE_LAST = 18446744073709551615 := rfl
  have hsize : SIZE_MAX = 18446744073709551615 := rfl
  have comp : ∀ a idx c, parse_enable_index a = .ok idx →
      drgn_handler_register chain name idx = .ok c →
      Program_register_finder chain name true a = .ok c := by
    intro a idx c hpa hha
    unfold Program_register_finder
    simp [hpa, hha]
  refine ⟨?_, ?_, ?_, ?_⟩
  · refine comp _ DRGN_HANDLER_REGISTER_DONT_ENABLE _ rfl ?_
    unfold drgn_handler_register
    rw [if_neg hname, if_pos rfl]
  · refine comp _ DRGN_HANDLER_REGISTER_ENABLE_LAST _ ?_ ?_
    · simp [parse_enable_index]
    · unfold drgn_handler_register
      rw [if_neg hname, if_neg (by rw [hlast, hdont]; omega), if_pos rfl]
  · have h1 : ¬((n : Int) = -1) := by omega
    have h2 : ¬((n : Int) < 0 ∨ ((SIZE_MAX : Nat) : Int) < (n : Int)) := by
      rw [hsize]
      rw [hdont] at hn
      push_neg
      constructor
      · omega
      · omega
    have hp : parse_enable_index (.intVal (n : Int)) = .ok n := by
      simp only [parse_enable_index]
      rw [if_neg h1, if_neg h2]
      simp only [Int.toNat_natCast]
      rw [if_neg (by omega)]
    refine comp _ n _ hp ?_
    unfold drgn_handler_register
    rw [if_neg hname, if_neg (by omega), if_neg (by rw [hlast]; rw [hdont] at hn; omega)]
  · rw [hdont]
    rw [hdont] at hlen
    have hp : parse_enable_index (.intVal ((18446744073709551614 : Nat) : Int))
        = .ok 18446744073709551613 := by
      simp only [parse_enable_index]
      rw [if_neg (by omega),
          if_neg (by rw [hsize]; push_neg; constructor <;> omega)]
      simp only [Int.toNat_natCast]
      rw [if_pos hdont.symm]
    refine comp _ _ _ hp ?_
    unfold drgn_handler_register
    rw [if_neg hname, if_neg (by rw [hdont]; omega),
        if_neg (by rw [hlast]; omega)]
    have hmin : min 18446744073709551613 chain.enabled.length
        = chain.enabled.length := by
      omega
    rw [hmin, insertAt_length]

/-- Witness for C4 at an empty chain, the finder name "f", and the
explicit index 0. -/
theorem register_finder_enable_index_witness :
    Program_register_finder ⟨[], []⟩ "f" true .noneVal
      = .ok ⟨["f"], []⟩
    ∧ Program_register_finder ⟨[], []⟩ "f" true (.intVal (-1))
      = .ok ⟨["f"], ["f"]⟩
    ∧ Program_register_finder ⟨[], []⟩ "f" true (.intVal ((0 : Nat) : Int))
      = .ok ⟨["f"], insertAt [] (min 0 ([] : List String).length) "f"⟩
    ∧ Program_register_finder ⟨[], []⟩ "f" true
        (.intVal (DRGN_HANDLER_REGISTER_DONT_ENABLE : Int))
      = .ok ⟨["f"], [] ++ ["f"]⟩ :=
  register_finder_enable_index ⟨[], []⟩ "f" (by decide) (by decide) 0 (by decide)

/-- Claim C5: whenever the entry registered at any position of the
symbol finder chain is a `SymbolIndex` — sole entry or not — its
invocation takes the fast path, querying the prebuilt index directly,
and that fast path returns exactly what dispatching the same
`SymbolIndex` through the generic Python-call path would return. -/
theorem symbol_index_fast_path (entries : List SymbolFinderEntry)
    (i : Nat) (ix : List DrgnSymbol) (q : SymbolQuery)
    (h : entries[i]? = some (.index ix)) :
    chainEntryInvoke entries i q = some (.ok (drgn_symbol_index_find q ix))
    ∧ py_symbol_find_fn (.index ix) q
      = py_symbol_find_fn (.callable (symbolIndexCall ix)) q := by
  have hgen : py_symbol_find_fn (.callable (symbolIndexCall ix)) q
      = .ok (drgn_symbol_index_find q ix) := by
    have hlen : ¬(1 < ((drgn_symbol_index_find q ix).map PySymItem.sym).length
        ∧ q.one = true) := by
      rintro ⟨hl, ho⟩
      rw [List.length_map] at hl
      unfold drgn_symbol_index_find at hl
      rw [ho] at hl
      simp [List.length_take] at hl
    simp only [py_symbol_find_fn, symbolIndexCall, py_symbol_find_fn_generic]
    rw [if_neg hlen, addSymbols_map_sym]
  constructor
  · simp [chainEntryInvoke, h, py_symbol_find_fn]
  · rw [hgen]
    rfl

/-- Witness for C5 at a two-entry chain whose second entry is a
`SymbolIndex`, queried by name with one result requested. -/
theorem symbol_index_fast_path_witness :
    chainEntryInvoke
        [.callable (fun _ => .nonSequence), .index [⟨"a", 0, 1⟩]] 1
        ⟨some "a", none, true⟩
      = some (.ok (drgn_symbol_index_find ⟨some "a", none, true⟩ [⟨"a", 0, 1⟩]))
    ∧ py_symbol_find_fn (.index [⟨"a", 0, 1⟩]) ⟨some "a", none, true⟩
      = py_symbol_find_fn (.callable (symbolIndexCall [⟨"a", 0, 1⟩]))
          ⟨some "a", none, true⟩ :=
  symbol_index_fast_path
    [.callable (fun _ => .nonSequence), .index [⟨"a", 0, 1⟩]] 1
    [⟨"a", 0, 1⟩] ⟨some "a", none, true⟩ rfl

/-- Claim C6: passing a `Type`, `Object`, or `Module` value that
belongs to a different program into `Program_type_arg`, `find_type`,
`linux_kernel_loadable_module`, `load_module_debug_info`, or
`find_standard_debug_info` is always rejected with the hard
invalid-argument (`ValueError`) exception at the binding boundary,
before any native dispatch (the dispatch flag is `false`, so the
program is unchanged), for every possible native behavior. -/
theorem cross_program_rejected (selfId : Nat)
    (t : DrgnQualifiedType) (ht : t.progId ≠ selfId)
    (o : DrgnObj) (ho : o.progId ≠ selfId)
    (args : List PyModuleArg)
    (hall : ∀ a ∈ args, ∃ m, a = PyModuleArg.module m)
    (hbad : ∃ m, PyModuleArg.module m ∈ args ∧ m.progId ≠ selfId) :
    (∀ native can_be_none,
      Program_type_arg selfId native (.typeVal t) can_be_none
        = (.error (.valueError "type is from different program"), false))
    ∧ (∀ native filename,
      Program_find_type selfId native (.typeVal t) filename
        = (.error (.valueError "type is from different program"), false))
    ∧ (∀ create nc nf,
      Program_linux_kernel_loadable_module selfId o create nc nf
        = (.error (.valueError "object is from different program"), false))
    ∧ (∀ native,
      Program_load_module_debug_info selfId args native
        = (.error (.valueError "module from wrong program"), false))
    ∧ (∀ opts native,
      Program_find_standard_debug_info selfId args opts native
        = (.error (.valueError "module from wrong program"), false)) := by
  have hcoll := collectModules_wrong_prog selfId args hall hbad
  refine ⟨?_, ?_, ?_, ?_, ?_⟩
  · intro native can_be_none
    simp [Program_type_arg, ht]
  · intro native filename
    simp [Program_find_type, ht]
  · intro create nc nf
    simp [Program_linux_kernel_loadable_module, ho]
  · intro native
    simp [Program_load_module_debug_info, hcoll]
  · intro opts native
    simp [Program_find_standard_debug_info, hcoll]

/-- Witness for C6 with program 0 receiving values owned by
program 1. -/
theorem cross_program_rejected_witness :
    (∀ native can_be_none,
      Program_type_arg 0 native (.typeVal ⟨1, "T", 0⟩) can_be_none
        = (.error (.valueError "type is from different program"), false))
    ∧ (∀ native filename,
      Program_find_type 0 native (.typeVal ⟨1, "T", 0⟩) filename
        = (.error (.valueError "type is from different program"), false))
    ∧ (∀ create nc nf,
      Program_linux_kernel_loadable_module 0 ⟨1, 7⟩ create nc nf
        = (.error (.valueError "object is from different program"), false))
    ∧ (∀ native,
      Program_load_module_debug_info 0 [.module ⟨1, "m"⟩] native
        = (.error (.valueError "module from wrong program"), false))
    ∧ (∀ opts native,
      Program_find_standard_debug_info 0 [.module ⟨1, "m"⟩] opts native
        = (.error (.valueError "module from wrong program"), false)) :=
  cross_program_rejected 0 ⟨1, "T", 0⟩ (by decide) ⟨1, 7⟩ (by decide)
    [.module ⟨1, "m"⟩]
    (by
      intro a ha
      rw [List.mem_singleton] at ha
      exact ⟨⟨1, "m"⟩, ha⟩)
    ⟨⟨1, "m"⟩, List.mem_singleton.mpr rfl, by decide⟩

/-- Claim C7: `main_module` with `create=True` and no name fails with
an error and creates nothing; with `create=True` and a name it performs
find-or-create keyed by that name (creating when absent, returning the
existing module on a matching name, failing on a second create with a
different name); with `create=False` a lookup that finds no main module
fails with `LookupError`. -/
theorem main_module_create_find (selfId : Nat)
    (registry : Option DrgnModule) (n : String) (m : DrgnModule)
    (nm : Option String)
    (hdiff : m.name ≠ n)
    (hfind : drgn_module_find_main registry nm = none) :
    Program_main_module selfId registry none true
      = (.error (.typeError "name must be given if create=True"), registry)
    ∧ Program_main_module selfId none (some n) true
      = (.ok ⟨selfId, n⟩, some ⟨selfId, n⟩)
    ∧ Program_main_module selfId (some m) (some m.name) true
      = (.ok m, some m)
    ∧ (∃ e, Program_main_module selfId (some m) (some n) true
        = (.error e, some m))
    ∧ Program_main_module selfId registry nm false
      = (.error (.lookupError "module not found"), registry) := by
  refine ⟨rfl, rfl, ?_, ?_, ?_⟩
  · simp [Program_main_module, drgn_module_find_or_create_main]
  · refine ⟨set_drgn_error (.native
      ⟨.invalidArgument, "main module already exists with a different name"⟩),
      ?_⟩
    simp [Program_main_module, drgn_module_find_or_create_main, hdiff]
  · simp [Program_main_module, hfind, Module_wrap_find]

/-- Witness for C7 with an empty registry, the names "a" and "b", and
an existing main module named "a". -/
theorem main_module_create_find_witness :
    Program_main_module 0 none none true
      = (.error (.typeError "name must be given if create=True"), none)
    ∧ Program_main_module 0 none (some "b") true
      = (.ok ⟨0, "b"⟩, some ⟨0, "b"⟩)
    ∧ Program_main_module 0 (some ⟨0, "a"⟩) (some (⟨0, "a"⟩ : DrgnModule).name)
        true
      = (.ok ⟨0, "a"⟩, some ⟨0, "a"⟩)
    ∧ (∃ e, Program_main_module 0 (some ⟨0, "a"⟩) (some "b") true
        = (.error e, some ⟨0, "a"⟩))
    ∧ Program_main_module 0 none none false
      = (.error (.lookupError "module not found"), none) :=
  main_module_create_find 0 none "b" ⟨0, "a"⟩ none (by decide) rfl

/-- Claim C8: a registered Python type or object finder callback's
return value maps to exactly the three chain outcomes: `None` is
not-found (the chain tries the next entry), a valid `Type`/`Object` of
this program is found (short-circuiting the chain), and a raised
exception — or a wrong-typed or wrong-program return — is an error that
aborts the chain immediately and propagates. -/
theorem finder_callback_three_outcomes (selfId : Nat)
    (t : DrgnQualifiedType) (ht : t.progId = selfId)
    (t2 : DrgnQualifiedType) (ht2 : t2.progId ≠ selfId)
    (o : DrgnObj) (ho : o.progId = selfId)
    (o2 : DrgnObj) (ho2 : o2.progId ≠ selfId)
    (e : PyExc) (s : String)
    (a : DrgnQualifiedType) (restT : List (FindOutcome DrgnQualifiedType))
    (fe : FinderError) :
    (py_type_find_fn selfId .noneVal = .notFound
      ∧ py_object_find_fn selfId .noneVal = .notFound)
    ∧ (py_type_find_fn selfId (.typeVal t) = .found t
      ∧ py_object_find_fn selfId (.objVal o) = .found o)
    ∧ (py_type_find_fn selfId (.raised e) = .failed (.python e)
      ∧ py_object_find_fn selfId (.raised e) = .failed (.python e))
    ∧ ((∃ e2, py_type_find_fn selfId (.nonType s) = .failed e2)
      ∧ (∃ e2, py_object_find_fn selfId (.nonObj s) = .failed e2)
      ∧ (∃ e2, py_type_find_fn selfId (.typeVal t2) = .failed e2)
      ∧ (∃ e2, py_object_find_fn selfId (.objVal o2) = .failed e2))
    ∧ (chainResolve (.found a :: restT) = .found a
      ∧ chainResolve (.failed fe :: restT) = .failed fe
      ∧ chainResolve (.notFound :: restT) = chainResolve restT
      ∧ chainResolve ([] : List (FindOutcome DrgnQualifiedType))
          = .notFound) := by
  refine ⟨⟨rfl, rfl⟩, ⟨?_, ?_⟩, ⟨rfl, rfl⟩,
    ⟨⟨.python (.typeError "type find callback must return Type or None"), rfl⟩,
     ⟨.python (.typeError "object find callback must return Object or None"),
      rfl⟩, ?_, ?_⟩,
    rfl, rfl, rfl, rfl⟩
  · simp [py_type_find_fn, ht]
  · simp [py_object_find_fn, drgn_object_copy, ho]
  · refine ⟨.python
      (.valueError "type find callback returned type from wrong program"), ?_⟩
    simp [py_type_find_fn, ht2]
  · refine ⟨.native ⟨.invalidArgument, "objects are from different programs"⟩,
      ?_⟩
    simp [py_object_find_fn, drgn_object_copy, ho2]

/-- Witness for C8 with program 0, values of programs 0 and 1, and a
singleton chain tail. -/
theorem finder_callback_three_outcomes_witness :
    (py_type_find_fn 0 .noneVal = .notFound
      ∧ py_object_find_fn 0 .noneVal = .notFound)
    ∧ (py_type_find_fn 0 (.typeVal ⟨0, "T", 0⟩) = .found ⟨0, "T", 0⟩
      ∧ py_object_find_fn 0 (.objVal ⟨0, 7⟩) = .found ⟨0, 7⟩)
    ∧ (py_type_find_fn 0 (.raised .keyError) = .failed (.python .keyError)
      ∧ py_object_find_fn 0 (.raised .keyError) = .failed (.python .keyError))
    ∧ ((∃ e2, py_type_find_fn 0 (.nonType "int") = .failed e2)
      ∧ (∃ e2, py_object_find_fn 0 (.nonObj "int") = .failed e2)
      ∧ (∃ e2, py_type_find_fn 0 (.typeVal ⟨1, "T", 0⟩) = .failed e2)
      ∧ (∃ e2, py_object_find_fn 0 (.objVal ⟨1, 7⟩) = .failed e2))
    ∧ (chainResolve
          (.found ⟨0, "T", 0⟩
            :: ([FindOutcome.notFound] : List (FindOutcome DrgnQualifiedType)))
          = .found (⟨0, "T", 0⟩ : DrgnQualifiedType)
      ∧ chainResolve
          (.failed (.python .keyError)
            :: ([FindOutcome.notFound] : List (FindOutcome DrgnQualifiedType)))
          = .failed (.python .keyError)
      ∧ chainResolve
          (.notFound
            :: ([FindOutcome.notFound] : List (FindOutcome DrgnQualifiedType)))
          = chainResolve
              ([FindOutcome.notFound] : List (FindOutcome DrgnQualifiedType))
      ∧ chainResolve ([] : List (FindOutcome DrgnQualifiedType))
          = .notFound) :=
  finder_callback_three_outcomes 0 ⟨0, "T", 0⟩ rfl ⟨1, "T", 0⟩ (by decide)
    ⟨0, 7⟩ rfl ⟨1, 7⟩ (by decide) .keyError "int" ⟨0, "T", 0⟩
    [FindOutcome.notFound] (.python .keyError)

/-- Claim C9: a memory-segment read callback asked for `count` bytes
that returns a buffer of any other length makes the read fail with a
`ValueError` reporting both lengths, and nothing is copied into the
destination; on success exactly the `count` bytes of the returned
buffer are copied. -/
theorem memory_read_exact_length (dest : List Nat) (count : Nat)
    (bytes bytes2 : List Nat) (e : PyExc)
    (hbad : bytes.length ≠ count) (hgood : bytes2.length = count) :
    py_memory_read_fn dest count (.buffer bytes)
      = (.error (.python (.valueError
          ("memory read callback returned buffer of length "
            ++ toString bytes.length ++ " (expected " ++ toString count
            ++ ")"))), dest)
    ∧ py_memory_read_fn dest count (.buffer bytes2) = (.ok (), bytes2)
    ∧ (py_memory_read_fn dest count (.buffer bytes2)).2.length = count
    ∧ py_memory_read_fn dest count (.raised e) = (.error (.python e), dest) := by
  refine ⟨?_, ?_, ?_, rfl⟩
  · simp [py_memory_read_fn, hbad]
  · simp [py_memory_read_fn, hgood]
  · simp [py_memory_read_fn, hgood]

/-- Witness for C9 at a three-byte destination, a short two-byte
callback result, and an exact three-byte result. -/
theorem memory_read_exact_length_witness :
    py_memory_read_fn [0, 0, 0] 3 (.buffer [1, 2])
      = (.error (.python (.valueError
          ("memory read callback returned buffer of length "
            ++ toString [1, 2].length ++ " (expected " ++ toString 3
            ++ ")"))), [0, 0, 0])
    ∧ py_memory_read_fn [0, 0, 0] 3 (.buffer [4, 5, 6]) = (.ok (), [4, 5, 6])
    ∧ (py_memory_read_fn [0, 0, 0] 3 (.buffer [4, 5, 6])).2.length = 3
    ∧ py_memory_read_fn [0, 0, 0] 3 (.raised .keyError)
      = (.error (.python .keyError), [0, 0, 0]) :=
  memory_read_exact_length [0, 0, 0] 3 [1, 2] [4, 5, 6] .keyError
    (by decide) (by decide)

/-- Claim C10: every callback registered with a program is inserted
into its held-object set with an incremented reference count, inserting
an already-held object is a no-op that does not double-count, and every
held object is released exactly once on deallocation or clearing; the
callbacks registered by `add_memory_segment` and the finder
registration methods are held this way. -/
theorem hold_object_lifecycle (s : ProgObjects) (a b x o : Nat)
    (ha : a ∈ s.objects) (hb : b ∉ s.objects) (hnd : s.objects.Nodup) :
    Program_hold_object s a = s
    ∧ (Program_hold_object s b).refcnt b = s.refcnt b + 1
    ∧ b ∈ (Program_hold_object s b).objects
    ∧ (Program_hold_object s b).objects.Nodup
    ∧ (Program_dealloc s).refcnt o
        = s.refcnt o - (if o ∈ s.objects then 1 else 0)
    ∧ (Program_clear s).refcnt o
        = s.refcnt o - (if o ∈ s.objects then 1 else 0)
    ∧ (Program_clear s).objects = []
    ∧ x ∈ (Program_add_memory_segment_objects s x).objects
    ∧ x ∈ (Program_register_finder_objects s x).objects := by
  have hrelease : decrefAll s.objects s.refcnt o
      = s.refcnt o - (if o ∈ s.objects then 1 else 0) := by
    rw [decrefAll_count]
    by_cases hm : o ∈ s.objects
    · rw [if_pos hm, List.count_eq_one_of_mem hnd hm]
      norm_num
    · rw [if_neg hm, List.count_eq_zero.mpr hm]
      norm_num
  refine ⟨?_, ?_, hold_mem s b, ?_, hrelease, hrelease, rfl,
    hold_mem s x, hold_mem s x⟩
  · simp [Program_hold_object, ha]
  · simp [Program_hold_object, hb]
  · simp [Program_hold_object, hb, List.nodup_cons, hnd]

/-- Witness for C10 at a program holding objects 1 and 2 with all
reference counts 5, holding 1 again (no-op) and 3 anew. -/
theorem hold_object_lifecycle_witness :
    Program_hold_object ⟨[1, 2], fun _ => 5⟩ 1 = ⟨[1, 2], fun _ => 5⟩
    ∧ (Program_hold_object ⟨[1, 2], fun _ => 5⟩ 3).refcnt 3
        = (fun _ => (5 : Int)) 3 + 1
    ∧ 3 ∈ (Program_hold_object ⟨[1, 2], fun _ => 5⟩ 3).objects
    ∧ (Program_hold_object ⟨[1, 2], fun _ => 5⟩ 3).objects.Nodup
    ∧ (Program_dealloc ⟨[1, 2], fun _ => 5⟩).refcnt 2
        = (fun _ => (5 : Int)) 2 - (if 2 ∈ [1, 2] then 1 else 0)
    ∧ (Program_clear ⟨[1, 2], fun _ => 5⟩).refcnt 2
        = (fun _ => (5 : Int)) 2 - (if 2 ∈ [1, 2] then 1 else 0)
    ∧ (Program_clear ⟨[1, 2], fun _ => 5⟩).objects = []
    ∧ 4 ∈ (Program_add_memory_segment_objects ⟨[1, 2], fun _ => 5⟩ 4).objects
    ∧ 4 ∈ (Program_register_finder_objects ⟨[1, 2], fun _ => 5⟩ 4).objects :=
  hold_object_lifecycle ⟨[1, 2], fun _ => 5⟩ 1 3 4 2 (by decide) (by decide)
    (by decide)
